import Mathlib

/-!
Verification of the Lagrange-point orbit simulator core
(`src/lagrangepointsimulator`): the position-Verlet integrator,
Lagrange geometry, initial-condition builder, co-rotating frame
transform, conserved-quantity diagnostics and parameter validation.

The embedding works over exact rationals.  The transcendental
functions used by the code (square root, cube root, cosine, sine and
the constant pi) are abstracted into a record `Ops` of unspecified
functions on ℚ, so every algebraic identity proved here holds for the
real-number semantics of the source as well: the theorems below never
assume anything about these functions beyond how the code composes
them.
-/

namespace LagrangeSim

/-- Abstract transcendental operations; the source obtains these from
`math`/`numpy` on IEEE doubles, here they are opaque parameters. -/
structure Ops where
  sqrt : ℚ → ℚ
  cbrt : ℚ → ℚ
  cos : ℚ → ℚ
  sin : ℚ → ℚ
  pi : ℚ

/-- A 3-vector of rationals, the embedding of a row of an `Array1D`. -/
structure Vec3 where
  x : ℚ
  y : ℚ
  z : ℚ
deriving DecidableEq, Repr, Inhabited

instance : Add Vec3 := ⟨fun u v => ⟨u.x + v.x, u.y + v.y, u.z + v.z⟩⟩

instance : Sub Vec3 := ⟨fun u v => ⟨u.x - v.x, u.y - v.y, u.z - v.z⟩⟩

instance : Neg Vec3 := ⟨fun u => ⟨-u.x, -u.y, -u.z⟩⟩

instance : SMul ℚ Vec3 := ⟨fun c v => ⟨c * v.x, c * v.y, c * v.z⟩⟩

instance : Zero Vec3 := ⟨⟨0, 0, 0⟩⟩

/-- Cross product of two 3-vectors (`numpy.cross`). -/
def Vec3.cross (u v : Vec3) : Vec3 :=
  ⟨u.y * v.z - u.z * v.y, u.z * v.x - u.x * v.z, u.x * v.y - u.y * v.x⟩

/-- Euclidean dot product. -/
def Vec3.dot (u v : Vec3) : ℚ := u.x * v.x + u.y * v.y + u.z * v.z

/-- Norm of a 3-vector (`numpy.linalg.norm`): the square root of the sum of squares. -/
def normQ (ops : Ops) (v : Vec3) : ℚ := ops.sqrt (v.x * v.x + v.y * v.y + v.z * v.z)

/- Constants from `constants.py`. -/

/-- Universal gravitational constant, `G = 6.67430e-11`. -/
def G : ℚ := 667430 / 10 ^ 16

/-- One astronomical unit in meters, `AU = 1.495978707e11`. -/
def AU : ℚ := 149597870700

/-- Seconds per hour. -/
def HOURS : ℚ := 60 * 60

/-- Seconds per Julian year. -/
def YEARS : ℚ := (36525 / 100) * 24 * HOURS

/-- Mass of the Sun in kilograms, `1.98847e30`. -/
def SUN_MASS : ℚ := 1988470000000000000000000000000

/-- Mass of the Earth in kilograms, `5.9722e24`. -/
def EARTH_MASS : ℚ := 5972200000000000000000000

/- `numba_funcs.py` -/

/-- Embeds `inverse_norm_cubed`: `sqrt(v.v) ** (-3)`. -/
def inverse_norm_cubed (ops : Ops) (v : Vec3) : ℚ :=
  (ops.sqrt (v.x * v.x + v.y * v.y + v.z * v.z)) ^ (-3 : ℤ)

/-- Embeds `calc_acceleration`: accelerations of star, planet and satellite
at the given positions, exactly as computed by the source (the output
buffers become the returned triple). -/
def calc_acceleration (ops : Ops) (G_star G_planet : ℚ)
    (star_pos planet_pos sat_pos : Vec3) : Vec3 × Vec3 × Vec3 :=
  let planet_to_star := star_pos - planet_pos
  let sat_to_star := star_pos - sat_pos
  let sat_to_planet := planet_pos - sat_pos
  let d_planet_to_star_inverse_cubed := inverse_norm_cubed ops planet_to_star
  let d_sat_to_star_inverse_cubed := inverse_norm_cubed ops sat_to_star
  let d_sat_to_planet_inverse_cubed := inverse_norm_cubed ops sat_to_planet
  let star_planet_coeff := G_planet * d_planet_to_star_inverse_cubed
  let planet_star_coeff := G_star * d_planet_to_star_inverse_cubed
  let sat_star_coeff := G_star * d_sat_to_star_inverse_cubed
  let sat_planet_coeff := G_planet * d_sat_to_planet_inverse_cubed
  ((-star_planet_coeff) • planet_to_star,
   planet_star_coeff • planet_to_star,
   sat_star_coeff • sat_to_star + sat_planet_coeff • sat_to_planet)

/-- The state of the three bodies at one time sample: one row of each
of the six trajectory arrays. -/
structure SimState where
  star_pos : Vec3
  star_vel : Vec3
  planet_pos : Vec3
  planet_vel : Vec3
  sat_pos : Vec3
  sat_vel : Vec3
deriving DecidableEq, Repr, Inhabited

/-- One iteration of the `integrate` loop body (`numba_funcs.py`,
steps for index `k` from the rows at `k-1`). -/
def verletStep (ops : Ops) (time_step G_star G_planet : ℚ) (s : SimState) : SimState :=
  let half_time_step := (1 / 2 : ℚ) * time_step
  let star_intermediate_pos := s.star_pos + half_time_step • s.star_vel
  let planet_intermediate_pos := s.planet_pos + half_time_step • s.planet_vel
  let sat_intermediate_pos := s.sat_pos + half_time_step • s.sat_vel
  let a := calc_acceleration ops G_star G_planet
    star_intermediate_pos planet_intermediate_pos sat_intermediate_pos
  let star_vel_next := s.star_vel + time_step • a.1
  let planet_vel_next := s.planet_vel + time_step • a.2.1
  let sat_vel_next := s.sat_vel + time_step • a.2.2
  { star_pos := star_intermediate_pos + half_time_step • star_vel_next
    star_vel := star_vel_next
    planet_pos := planet_intermediate_pos + half_time_step • planet_vel_next
    planet_vel := planet_vel_next
    sat_pos := sat_intermediate_pos + half_time_step • sat_vel_next
    sat_vel := sat_vel_next }

/-- Embeds `integrate`: starting from the row-0 state it fills rows `1 .. num_steps`;
the result is the list of all `num_steps + 1` rows. -/
def integrate (ops : Ops) (time_step : ℚ) (num_steps : ℕ)
    (star_mass planet_mass : ℚ) (init : SimState) : List SimState :=
  (List.range (num_steps + 1)).map
    (fun k => (verletStep ops time_step (G * star_mass) (G * planet_mass))^[k] init)

/-- Embeds `transform_to_corotating` from `numba_funcs.py`: rotate the x,y
components of each sample by `-angular_speed * times[i]`; only the two
rotated components are produced. -/
def transform_to_corotating_nb (ops : Ops) (pos_trans : List Vec3)
    (times : List ℚ) (angular_speed : ℚ) : List (ℚ × ℚ) :=
  (List.range pos_trans.length).map (fun i =>
    let time := times.getD i 0
    let angle := -angular_speed * time
    let c := ops.cos angle
    let sn := ops.sin angle
    let p := pos_trans.getD i 0
    (c * p.x - sn * p.y, sn * p.x + c * p.y))

/- `descriptors.py` (the predicates; the raising machinery is modelled
further below). -/

/-- Value check `is_positive`. -/
def is_positive (x : ℚ) : Bool := 0 < x

/-- Value check `is_non_negative`. -/
def is_non_negative (x : ℚ) : Bool := 0 ≤ x

/-- The `lagrange_labels` tuple. -/
def lagrange_labels : List String := ["L1", "L2", "L3", "L4", "L5"]

/-- Value check `is_lagrange_label`. -/
def is_lagrange_label (x : String) : Bool := x ∈ lagrange_labels

/- `simulator.py` -/

/-- Embeds `unit_vector`: unit vector at the given angle in radians. -/
def unit_vector (ops : Ops) (angle : ℚ) : Vec3 := ⟨ops.cos angle, ops.sin angle, 0⟩

/-- Degrees to radians (`numpy.radians`). -/
def radiansQ (ops : Ops) (deg : ℚ) : ℚ := deg * ops.pi / 180

/-- Sign function (`numpy.sign`). -/
def signQ (x : ℚ) : ℚ := if 0 < x then 1 else if x < 0 then -1 else 0

/-- Componentwise division of a vector by a scalar (numpy `array / scalar`). -/
def Vec3.divQ (v : Vec3) (c : ℚ) : Vec3 := ⟨v.x / c, v.y / c, v.z / c⟩

/-- The divisor `G * (star_mass + planet_mass)` inside
`calc_period_from_semi_major_axis`. -/
def period_divisor (star_mass planet_mass : ℚ) : ℚ := G * (star_mass + planet_mass)

/-- Embeds `calc_period_from_semi_major_axis`. -/
def calc_period_from_semi_major_axis (ops : Ops)
    (semi_major_axis star_mass planet_mass : ℚ) : ℚ :=
  let period_squared := 4 * ops.pi ^ 2 * semi_major_axis ^ 3 /
    period_divisor star_mass planet_mass
  ops.sqrt period_squared

/-- The parameter fields of the `Simulator` class. -/
structure Simulator where
  num_years : ℚ
  time_step : ℚ
  perturbation_size : ℚ
  perturbation_angle : Option ℚ
  speed : ℚ
  vel_angle : Option ℚ
  lagrange_label : String
  star_mass : ℚ
  planet_mass : ℚ
  planet_distance : ℚ
deriving DecidableEq, Repr

/-- Embeds `Simulator.SAT_MASS`: mass of the satellite in kilograms. -/
def SAT_MASS : ℚ := 1

/-- An assignment of a value to one validated `Simulator` field. -/
inductive FieldAssign where
  | num_years (v : ℚ)
  | time_step (v : ℚ)
  | perturbation_size (v : ℚ)
  | perturbation_angle (v : Option ℚ)
  | speed (v : ℚ)
  | vel_angle (v : Option ℚ)
  | lagrange_label (v : String)
  | star_mass (v : ℚ)
  | planet_mass (v : ℚ)
  | planet_distance (v : ℚ)
deriving DecidableEq, Repr

/-- The error taxonomy of §7 of the design: `ValidationError` is raised
by the external `validateddescriptor` package on a rejected assignment;
`ConfigurationError` is the taxonomy name for the error the geometry
code raises on an unrecognized Lagrange label (a Python `ValueError`
at that site). -/
inductive SimError where
  | validationError (field : FieldAssign) (constraint : String)
  | configurationError (msg : String)
deriving DecidableEq, Repr

/-- The predicate each field descriptor applies, from the descriptor
declarations in the `Simulator` class body (`float_desc` and
`optional_float_desc` carry no value checks). -/
def fieldCheck : FieldAssign → Bool
  | .num_years v => is_positive v
  | .time_step _ => true
  | .perturbation_size _ => true
  | .perturbation_angle _ => true
  | .speed _ => true
  | .vel_angle _ => true
  | .lagrange_label v => is_lagrange_label v
  | .star_mass v => is_non_negative v
  | .planet_mass v => is_non_negative v
  | .planet_distance v => is_positive v

/-- The constraint description attached to each field's value check. -/
def fieldConstraint : FieldAssign → String
  | .num_years _ => "positive"
  | .time_step _ => "no constraint"
  | .perturbation_size _ => "no constraint"
  | .perturbation_angle _ => "no constraint"
  | .speed _ => "no constraint"
  | .vel_angle _ => "no constraint"
  | .lagrange_label _ => "one of (L1, L2, L3, L4, L5)"
  | .star_mass _ => "non-negative"
  | .planet_mass _ => "non-negative"
  | .planet_distance _ => "positive"

/-- Record update performed by a successful assignment. -/
def applyField (s : Simulator) : FieldAssign → Simulator
  | .num_years v => { s with num_years := v }
  | .time_step v => { s with time_step := v }
  | .perturbation_size v => { s with perturbation_size := v }
  | .perturbation_angle v => { s with perturbation_angle := v }
  | .speed v => { s with speed := v }
  | .vel_angle v => { s with vel_angle := v }
  | .lagrange_label v => { s with lagrange_label := v }
  | .star_mass v => { s with star_mass := v }
  | .planet_mass v => { s with planet_mass := v }
  | .planet_distance v => { s with planet_distance := v }

/-- Modelled from the spec: the `ValidatedDescriptor.__set__` machinery
lives in the external `validateddescriptor` package, absent from the
sources; per §4.1 an assignment applies the field predicate on every
write and, on violation, raises a `ValidationError` identifying the
field, the value and the constraint while the previous value is
retained (no mutation). -/
def setField (s : Simulator) (a : FieldAssign) : Simulator × Option SimError :=
  if fieldCheck a then (applyField s a, none)
  else (s, some (.validationError a (fieldConstraint a)))

/-- All validated setters accept the state. -/
def paramsValid (s : Simulator) : Bool :=
  is_positive s.num_years && is_non_negative s.star_mass &&
  is_non_negative s.planet_mass && is_positive s.planet_distance &&
  is_lagrange_label s.lagrange_label

/-- Embeds `Simulator.sim_time`: time to simulate in seconds. -/
def sim_time (s : Simulator) : ℚ := s.num_years * YEARS

/-- Embeds `Simulator.time_step_in_seconds`. -/
def time_step_in_seconds (s : Simulator) : ℚ := s.time_step * HOURS

/-- Embeds `Simulator.num_steps`. -/
def num_steps (s : Simulator) : ℕ :=
  if time_step_in_seconds s = 0 then 0
  else (Int.ceil |sim_time s / time_step_in_seconds s|).toNat

/-- Embeds `Simulator.time_points`: `numpy.linspace(0, sim_time, num_steps + 1)`. -/
def time_points (s : Simulator) : List ℚ :=
  (List.range (num_steps s + 1)).map
    (fun i => if num_steps s = 0 then 0 else sim_time s * i / num_steps s)

/-- The divisor `3 * star_mass` inside the Hill-radius expression of
`calc_lagrange_point`. -/
def hill_radius_divisor (star_mass : ℚ) : ℚ := 3 * star_mass

/-- Embeds `Simulator.calc_lagrange_point`; the `match` default raises on an
unrecognized label. -/
def calc_lagrange_point (ops : Ops) (s : Simulator) : Except SimError Vec3 :=
  let planet_distance_meters := s.planet_distance * AU
  let hill_radius := planet_distance_meters *
    ops.cbrt (s.planet_mass / hill_radius_divisor s.star_mass)
  if s.lagrange_label = "L1" then
    .ok (planet_distance_meters • (⟨1, 0, 0⟩ : Vec3) - ⟨hill_radius, 0, 0⟩)
  else if s.lagrange_label = "L2" then
    .ok (planet_distance_meters • (⟨1, 0, 0⟩ : Vec3) + ⟨hill_radius, 0, 0⟩)
  else if s.lagrange_label = "L3" then
    let l3_dist := planet_distance_meters * 7 / 12 * s.planet_mass / s.star_mass
    .ok ((-planet_distance_meters) • (⟨1, 0, 0⟩ : Vec3) - ⟨l3_dist, 0, 0⟩)
  else if s.lagrange_label = "L4" then
    .ok (planet_distance_meters • unit_vector ops (ops.pi / 3))
  else if s.lagrange_label = "L5" then
    .ok (planet_distance_meters • unit_vector ops (-ops.pi / 3))
  else
    .error (.configurationError
      "Invalid Lagrange point label. Must be one of (L1, L2, L3, L4, L5)")

/-- Embeds `Simulator.default_perturbation_angle` (a dict lookup in the source;
only reached with a recognized label). -/
def default_perturbation_angle (s : Simulator) : ℚ :=
  if s.lagrange_label = "L1" then 0
  else if s.lagrange_label = "L2" then 0
  else if s.lagrange_label = "L3" then 180
  else if s.lagrange_label = "L4" then 60
  else if s.lagrange_label = "L5" then -60
  else 0

/-- Embeds `Simulator.actual_perturbation_angle`. -/
def actual_perturbation_angle (s : Simulator) : ℚ :=
  s.perturbation_angle.getD (default_perturbation_angle s)

/-- Embeds `Simulator.actual_vel_angle`. -/
def actual_vel_angle (s : Simulator) : ℚ :=
  s.vel_angle.getD (default_perturbation_angle s + 90)

/-- Embeds `Simulator.orbital_period`. -/
def orbital_period (ops : Ops) (s : Simulator) : ℚ :=
  calc_period_from_semi_major_axis ops (s.planet_distance * AU) s.star_mass s.planet_mass

/-- Embeds `Simulator.angular_speed`. -/
def angular_speed (ops : Ops) (s : Simulator) : ℚ :=
  2 * ops.pi / orbital_period ops s

/-- Embeds `Simulator.calc_center_of_mass` on single rows. -/
def calc_center_of_mass (s : Simulator) (star planet sat : Vec3) : Vec3 :=
  Vec3.divQ (s.star_mass • star + s.planet_mass • planet + SAT_MASS • sat)
    (s.star_mass + s.planet_mass + SAT_MASS)

/-- Embeds `Simulator._initialize_velocities`: velocities of the three bodies
from the pre-translation positions and the center of mass. -/
def initialize_velocities (ops : Ops) (s : Simulator)
    (star0 planet0 init_cm_pos : Vec3) : Vec3 × Vec3 × Vec3 :=
  let angular_vel : Vec3 := ⟨0, 0, angular_speed ops s⟩
  let star_vel0 := Vec3.cross angular_vel (star0 - init_cm_pos)
  let planet_vel0 := Vec3.cross angular_vel (planet0 - init_cm_pos)
  let speed := s.speed * normQ ops planet_vel0
  let vel_angle := radiansQ ops (actual_vel_angle s)
  (star_vel0, planet_vel0, speed • unit_vector ops vel_angle)

/-- Embeds `Simulator._initialize_arrays`: builds the row-0 state
(`_initialize_positions`, `_initialize_velocities`,
`_transform_to_cm_ref_frame`) and the translated Lagrange point;
propagates the error of `calc_lagrange_point` on a bad label. -/
def initialize_arrays (ops : Ops) (s : Simulator) : Except SimError (SimState × Vec3) :=
  match calc_lagrange_point ops s with
  | .error e => .error e
  | .ok lagrange_point =>
    let star0 : Vec3 := ⟨0, 0, 0⟩
    let planet0 : Vec3 := ⟨s.planet_distance * AU, 0, 0⟩
    let perturbation_size := s.perturbation_size * AU
    let perturbation_angle := radiansQ ops (actual_perturbation_angle s)
    let perturbation := perturbation_size • unit_vector ops perturbation_angle
    let sat0 := lagrange_point + perturbation
    let init_cm_pos := calc_center_of_mass s star0 planet0 sat0
    let vels := initialize_velocities ops s star0 planet0 init_cm_pos
    .ok ({ star_pos := star0 - init_cm_pos
           star_vel := vels.1
           planet_pos := planet0 - init_cm_pos
           planet_vel := vels.2.1
           sat_pos := sat0 - init_cm_pos
           sat_vel := vels.2.2 },
         lagrange_point - init_cm_pos)

/-- Embeds `Simulator.simulate`: initialize the arrays, then integrate; the
result is the full trajectory plus `lagrange_point_trans`. -/
def simulate (ops : Ops) (s : Simulator) : Except SimError (List SimState × Vec3) :=
  (initialize_arrays ops s).map (fun d =>
    (integrate ops (time_step_in_seconds s) (num_steps s) s.star_mass s.planet_mass d.1,
     d.2))

/-- Embeds `Simulator.transform_to_corotating`. -/
def Simulator.transform_to_corotating (ops : Ops) (s : Simulator)
    (pos_trans : List Vec3) : List (ℚ × ℚ) :=
  transform_to_corotating_nb ops pos_trans (time_points s)
    (angular_speed ops s * signQ (time_step_in_seconds s))

/-- Embeds `Simulator.calc_total_linear_momentum` over a stored trajectory. -/
def calc_total_linear_momentum (s : Simulator) (traj : List SimState) : List Vec3 :=
  traj.map (fun st =>
    s.star_mass • st.star_vel + s.planet_mass • st.planet_vel + SAT_MASS • st.sat_vel)

/-- Embeds `Simulator.calc_total_angular_momentum` over a stored trajectory. -/
def calc_total_angular_momentum (s : Simulator) (traj : List SimState) : List Vec3 :=
  traj.map (fun st =>
    Vec3.cross st.star_pos (s.star_mass • st.star_vel) +
    Vec3.cross st.planet_pos (s.planet_mass • st.planet_vel) +
    Vec3.cross st.sat_pos (SAT_MASS • st.sat_vel))

/-- Embeds `Simulator.calc_total_energy` over a stored trajectory. -/
def calc_total_energy (ops : Ops) (s : Simulator) (traj : List SimState) : List ℚ :=
  traj.map (fun st =>
    let planet_to_star_distance := normQ ops (st.star_pos - st.planet_pos)
    let planet_to_sat_distance := normQ ops (st.sat_pos - st.planet_pos)
    let star_to_sat_distance := normQ ops (st.sat_pos - st.star_pos)
    let potential_energy := -G * (
      s.star_mass * s.planet_mass / planet_to_star_distance +
      SAT_MASS * s.planet_mass / planet_to_sat_distance +
      SAT_MASS * s.star_mass / star_to_sat_distance)
    let kinetic_energy := (1 / 2 : ℚ) * (
      s.star_mass * (normQ ops st.star_vel) ^ 2 +
      s.planet_mass * (normQ ops st.planet_vel) ^ 2 +
      SAT_MASS * (normQ ops st.sat_vel) ^ 2)
    potential_energy + kinetic_energy)

/-- Embeds `Simulator.calc_conserved_quantities`. -/
def calc_conserved_quantities (ops : Ops) (s : Simulator) (traj : List SimState) :
    List Vec3 × List Vec3 × List ℚ :=
  (calc_total_linear_momentum s traj,
   calc_total_angular_momentum s traj,
   calc_total_energy ops s traj)

/- Specification-side definitions, written from the words of §4.3 and
§4.4 of the design document, to be compared with the source-side
definitions above. -/

/-- One gravitational acceleration term as the spec words it: `G` times
the mass of the other body, times the separation vector, times the
inverse cube of its norm. -/
def specAccelTerm (ops : Ops) (G_mass_other : ℚ) (body other : Vec3) : Vec3 :=
  (G_mass_other * (normQ ops (other - body)) ^ (-3 : ℤ)) • (other - body)

/-- One position-Verlet step as the spec words it: half-step positions
`pos + vel·(Δt/2)`, accelerations at the half-step positions (star
pulled only by the planet, planet only by the star, satellite by both),
full-step velocities `vel + accel·Δt`, full-step positions
`pos_half + vel_new·(Δt/2)`. -/
def specStep (ops : Ops) (dt star_mass planet_mass : ℚ) (prev : SimState) : SimState :=
  let star_half := prev.star_pos + (dt / 2) • prev.star_vel
  let planet_half := prev.planet_pos + (dt / 2) • prev.planet_vel
  let sat_half := prev.sat_pos + (dt / 2) • prev.sat_vel
  let star_accel := specAccelTerm ops (G * planet_mass) star_half planet_half
  let planet_accel := specAccelTerm ops (G * star_mass) planet_half star_half
  let sat_accel := specAccelTerm ops (G * star_mass) sat_half star_half +
    specAccelTerm ops (G * planet_mass) sat_half planet_half
  let star_vel_new := prev.star_vel + dt • star_accel
  let planet_vel_new := prev.planet_vel + dt • planet_accel
  let sat_vel_new := prev.sat_vel + dt • sat_accel
  { star_pos := star_half + (dt / 2) • star_vel_new
    star_vel := star_vel_new
    planet_pos := planet_half + (dt / 2) • planet_vel_new
    planet_vel := planet_vel_new
    sat_pos := sat_half + (dt / 2) • sat_vel_new
    sat_vel := sat_vel_new }

/-- The §4.3 initial state as the claim words it: star at the origin and
planet at `(planet_distance·AU, 0, 0)` before re-centering, satellite at
the Lagrange point plus `perturbation_size·AU·(cos θ, sin θ, 0)`, star
and planet velocities `ω ẑ × (pos − CM)` for the mass-weighted center of
mass `CM` (satellite mass 1 kg), satellite velocity
`speed · |planet velocity| · (cos φ, sin φ, 0)`, and all positions plus
the translated Lagrange point shifted by `−CM`. -/
def specInitConstruction (ops : Ops) (s : Simulator) (lagrange_point : Vec3) :
    SimState × Vec3 :=
  let star0 : Vec3 := ⟨0, 0, 0⟩
  let planet0 : Vec3 := ⟨s.planet_distance * AU, 0, 0⟩
  let theta := radiansQ ops (actual_perturbation_angle s)
  let sat0 := lagrange_point +
    (s.perturbation_size * AU) • (⟨ops.cos theta, ops.sin theta, 0⟩ : Vec3)
  let cm := Vec3.divQ (s.star_mass • star0 + s.planet_mass • planet0 + (1 : ℚ) • sat0)
    (s.star_mass + s.planet_mass + 1)
  let omega := angular_speed ops s
  let phi := radiansQ ops (actual_vel_angle s)
  let planet_vel0 := Vec3.cross ⟨0, 0, omega⟩ (planet0 - cm)
  ({ star_pos := star0 - cm
     star_vel := Vec3.cross ⟨0, 0, omega⟩ (star0 - cm)
     planet_pos := planet0 - cm
     planet_vel := planet_vel0
     sat_pos := sat0 - cm
     sat_vel := (s.speed * normQ ops planet_vel0) • ⟨ops.cos phi, ops.sin phi, 0⟩ },
   lagrange_point - cm)

/- Concrete instances used by the witnesses. -/

/-- A concrete choice of the abstract transcendental operations. -/
def opsId : Ops := ⟨fun x => x, fun x => x, fun x => x, fun x => x, 3⟩

/-- The default parameter set of the `Simulator` constructor. -/
def simDefault : Simulator :=
  { num_years := 100, time_step := 1, perturbation_size := 0,
    perturbation_angle := none, speed := 1, vel_angle := none,
    lagrange_label := "L4", star_mass := SUN_MASS, planet_mass := EARTH_MASS,
    planet_distance := 1 }

/-- The default parameters with a different star and planet mass. -/
def simOtherMasses : Simulator :=
  { simDefault with star_mass := 2 * SUN_MASS, planet_mass := 5 }

/-- The default parameters with the unrecognized label `L9`. -/
def simBadLabel : Simulator := { simDefault with lagrange_label := "L9" }

/-- A parameter set with both masses zero; every validated setter
accepts it. -/
def simZeroMass : Simulator :=
  { simDefault with lagrange_label := "L1", star_mass := 0, planet_mass := 0 }

/-- A concrete three-body state. -/
def stateOne : SimState :=
  { star_pos := ⟨0, 0, 0⟩, star_vel := ⟨0, 1, 0⟩,
    planet_pos := ⟨1, 0, 0⟩, planet_vel := ⟨0, 2, 0⟩,
    sat_pos := ⟨0, 1, 0⟩, sat_vel := ⟨1, 0, 0⟩ }

/- Helper lemmas. -/

theorem Vec3.add_def (u v : Vec3) : u + v = ⟨u.x + v.x, u.y + v.y, u.z + v.z⟩ := rfl

theorem Vec3.sub_def (u v : Vec3) : u - v = ⟨u.x - v.x, u.y - v.y, u.z - v.z⟩ := rfl

theorem Vec3.smul_def (c : ℚ) (v : Vec3) : c • v = ⟨c * v.x, c * v.y, c * v.z⟩ := rfl

theorem normQ_sub_comm (ops : Ops) (u v : Vec3) :
    normQ ops (u - v) = normQ ops (v - u) := by
  unfold normQ
  have h : (u - v).x * (u - v).x + (u - v).y * (u - v).y + (u - v).z * (u - v).z
      = (v - u).x * (v - u).x + (v - u).y * (v - u).y + (v - u).z * (v - u).z := by
    simp only [Vec3.sub_def]
    ring
  rw [h]

theorem inverse_norm_cubed_eq_normQ (ops : Ops) (v : Vec3) :
    inverse_norm_cubed ops v = (normQ ops v) ^ (-3 : ℤ) := rfl

theorem inverse_norm_cubed_sub_comm (ops : Ops) (u v : Vec3) :
    inverse_norm_cubed ops (u - v) = inverse_norm_cubed ops (v - u) := by
  rw [inverse_norm_cubed_eq_normQ, inverse_norm_cubed_eq_normQ, normQ_sub_comm]

/-- Lemma: `calc_acceleration` produces exactly the three spec-worded
acceleration terms. -/
theorem calc_acceleration_eq (ops : Ops) (G_star G_planet : ℚ)
    (star planet sat : Vec3) :
    calc_acceleration ops G_star G_planet star planet sat =
      (specAccelTerm ops G_planet star planet,
       specAccelTerm ops G_star planet star,
       specAccelTerm ops G_star sat star + specAccelTerm ops G_planet sat planet) := by
  simp only [calc_acceleration, specAccelTerm, Prod.mk.injEq]
  refine ⟨?_, ?_, ?_⟩
  · rw [inverse_norm_cubed_sub_comm, inverse_norm_cubed_eq_normQ]
    simp only [Vec3.smul_def, Vec3.sub_def, Vec3.mk.injEq]
    refine ⟨by ring, by ring, by ring⟩
  · rw [inverse_norm_cubed_eq_normQ]
  · rw [inverse_norm_cubed_eq_normQ, inverse_norm_cubed_eq_normQ]

/-- The source loop body equals the step the spec describes. -/
theorem verletStep_eq_specStep (ops : Ops) (dt star_mass planet_mass : ℚ)
    (st : SimState) :
    verletStep ops dt (G * star_mass) (G * planet_mass) st =
      specStep ops dt star_mass planet_mass st := by
  have hdt : (1 / 2 : ℚ) * dt = dt / 2 := by ring
  simp only [verletStep, specStep, calc_acceleration_eq, hdt]

theorem integrate_getD (ops : Ops) (time_step : ℚ) (nsteps : ℕ)
    (star_mass planet_mass : ℚ) (init : SimState) (i : ℕ) (h : i ≤ nsteps) :
    (integrate ops time_step nsteps star_mass planet_mass init).getD i default =
      (verletStep ops time_step (G * star_mass) (G * planet_mass))^[i] init := by
  unfold integrate
  rw [List.getD_eq_getElem?_getD, List.getElem?_map,
    List.getElem?_range (by omega : i < nsteps + 1)]
  rfl

/-- Claim C1: for every parameter set and every step index `k` from `1`
to `num_steps`, the integrator computes, for each body, a half-step
position `pos[k-1] + vel[k-1]·(Δt/2)`, evaluates the gravitational
accelerations at the half-step positions (star pulled only by the
planet, planet only by the star, satellite by both, each term being
`G·mass_other` times the separation vector times the inverse cube of
its norm), then sets `vel[k] = vel[k-1] + accel·Δt` and
`pos[k] = pos_half + vel[k]·(Δt/2)`. -/
theorem integrate_is_position_verlet (ops : Ops) (time_step : ℚ) (nsteps : ℕ)
    (star_mass planet_mass : ℚ) (init : SimState) (k : ℕ)
    (hk1 : 1 ≤ k) (hk2 : k ≤ nsteps) :
    (integrate ops time_step nsteps star_mass planet_mass init).getD k default =
      specStep ops time_step star_mass planet_mass
        ((integrate ops time_step nsteps star_mass planet_mass init).getD (k - 1) default) := by
  obtain ⟨m, rfl⟩ : ∃ m, k = m + 1 := ⟨k - 1, (Nat.succ_pred_eq_of_pos hk1).symm⟩
  rw [integrate_getD ops time_step nsteps star_mass planet_mass init (m + 1) hk2,
    Nat.add_sub_cancel,
    integrate_getD ops time_step nsteps star_mass planet_mass init m (by omega),
    Function.iterate_succ_apply', verletStep_eq_specStep]

/-- Witness for C1 at a concrete input. -/
theorem integrate_is_position_verlet_witness :
    (1 : ℕ) ≤ 1 ∧ (1 : ℕ) ≤ 1 ∧
    (integrate opsId 1 1 1 1 stateOne).getD 1 default =
      specStep opsId 1 1 1 ((integrate opsId 1 1 1 1 stateOne).getD 0 default) :=
  ⟨le_refl 1, le_refl 1,
    integrate_is_position_verlet opsId 1 1 1 1 stateOne 1 (by decide) (by decide)⟩

/-- On a recognized label, `calc_lagrange_point` succeeds. -/
theorem calc_lagrange_point_ok (ops : Ops) (s : Simulator)
    (h : is_lagrange_label s.lagrange_label = true) :
    ∃ L, calc_lagrange_point ops s = .ok L := by
  cases hres : calc_lagrange_point ops s with
  | ok L => exact ⟨L, rfl⟩
  | error e =>
    exfalso
    simp only [is_lagrange_label, lagrange_labels, List.mem_cons,
      List.not_mem_nil, or_false, decide_eq_true_eq] at h
    rcases h with h | h | h | h | h <;> simp [calc_lagrange_point, h] at hres

/-- Claim C2: after any `simulate()` call on a valid parameter set, all
six trajectory series have length `num_steps + 1`, where `num_steps` is
`0` when `time_step` is zero and `⌈|sim_time / Δt|⌉` with
`sim_time = num_years · YEARS` and `Δt = time_step · HOURS` otherwise. -/
theorem simulate_series_lengths (ops : Ops) (s : Simulator)
    (h : paramsValid s = true) :
    ∃ traj lagrange_point_trans,
      simulate ops s = .ok (traj, lagrange_point_trans) ∧
      (traj.map SimState.star_pos).length = num_steps s + 1 ∧
      (traj.map SimState.star_vel).length = num_steps s + 1 ∧
      (traj.map SimState.planet_pos).length = num_steps s + 1 ∧
      (traj.map SimState.planet_vel).length = num_steps s + 1 ∧
      (traj.map SimState.sat_pos).length = num_steps s + 1 ∧
      (traj.map SimState.sat_vel).length = num_steps s + 1 ∧
      (s.time_step = 0 → num_steps s = 0) ∧
      (s.time_step ≠ 0 →
        (num_steps s : ℤ) = ⌈|s.num_years * YEARS / (s.time_step * HOURS)|⌉) := by
  have hlabel : is_lagrange_label s.lagrange_label = true := by
    simp only [paramsValid, Bool.and_eq_true] at h
    exact h.2
  obtain ⟨L, hL⟩ := calc_lagrange_point_ok ops s hlabel
  obtain ⟨d, hd⟩ : ∃ d, initialize_arrays ops s = .ok d := by
    cases hres : initialize_arrays ops s with
    | ok d => exact ⟨d, rfl⟩
    | error e => simp [initialize_arrays, hL] at hres
  refine ⟨integrate ops (time_step_in_seconds s) (num_steps s)
    s.star_mass s.planet_mass d.1, d.2, ?_, ?_, ?_, ?_, ?_, ?_, ?_, ?_, ?_⟩
  · simp [simulate, hd, Except.map]
  · simp [integrate]
  · simp [integrate]
  · simp [integrate]
  · simp [integrate]
  · simp [integrate]
  · simp [integrate]
  · intro h0
    simp [num_steps, time_step_in_seconds, h0]
  · intro h0
    have hne : time_step_in_seconds s ≠ 0 := by
      simp only [time_step_in_seconds, HOURS]
      exact mul_ne_zero h0 (by norm_num)
    rw [num_steps, if_neg hne,
      Int.toNat_of_nonneg (Int.ceil_nonneg (abs_nonneg _))]
    rfl

/-- Witness for C2 at the default parameter set. -/
theorem simulate_series_lengths_witness :
    paramsValid simDefault = true ∧
    (∃ traj lagrange_point_trans,
      simulate opsId simDefault = .ok (traj, lagrange_point_trans) ∧
      (traj.map SimState.star_pos).length = num_steps simDefault + 1 ∧
      (traj.map SimState.star_vel).length = num_steps simDefault + 1 ∧
      (traj.map SimState.planet_pos).length = num_steps simDefault + 1 ∧
      (traj.map SimState.planet_vel).length = num_steps simDefault + 1 ∧
      (traj.map SimState.sat_pos).length = num_steps simDefault + 1 ∧
      (traj.map SimState.sat_vel).length = num_steps simDefault + 1 ∧
      (simDefault.time_step = 0 → num_steps simDefault = 0) ∧
      (simDefault.time_step ≠ 0 →
        (num_steps simDefault : ℤ) =
          ⌈|simDefault.num_years * YEARS / (simDefault.time_step * HOURS)|⌉)) :=
  ⟨by decide, simulate_series_lengths opsId simDefault (by decide)⟩

/-- Claim C3: the index-0 state built by `simulate()` equals the §4.3
construction: star at the origin and planet at
`(planet_distance·AU, 0, 0)` before re-centering, satellite at the
Lagrange point plus `perturbation_size·AU·(cos θ, sin θ, 0)`, star and
planet velocities `ω ẑ × (pos − CM)` for the mass-weighted center of
mass `CM` (satellite mass 1 kg), satellite velocity
`speed · |planet velocity| · (cos φ, sin φ, 0)`, and the three
positions plus the stored translated Lagrange point shifted by `−CM`. -/
theorem initial_state_matches_spec_construction (ops : Ops) (s : Simulator)
    (h : is_lagrange_label s.lagrange_label = true) :
    ∃ L, calc_lagrange_point ops s = .ok L ∧
      initialize_arrays ops s = .ok (specInitConstruction ops s L) := by
  obtain ⟨L, hL⟩ := calc_lagrange_point_ok ops s h
  refine ⟨L, hL, ?_⟩
  simp [initialize_arrays, hL, specInitConstruction, initialize_velocities,
    calc_center_of_mass, SAT_MASS, unit_vector]

/-- Witness for C3 at the default parameter set. -/
theorem initial_state_matches_spec_construction_witness :
    is_lagrange_label simDefault.lagrange_label = true ∧
    (∃ L, calc_lagrange_point opsId simDefault = .ok L ∧
      initialize_arrays opsId simDefault =
        .ok (specInitConstruction opsId simDefault L)) :=
  ⟨by decide, initial_state_matches_spec_construction opsId simDefault (by decide)⟩

/-- Claim C4: with `d = planet_distance·AU`, `calc_lagrange_point()`
returns exactly the closed form for the selected label:
`L1 = d·x̂ − r_H·x̂`, `L2 = d·x̂ + r_H·x̂` with
`r_H = d·(planet_mass/(3·star_mass))^(1/3)`,
`L3 = −d·x̂ − (7/12·d·planet_mass/star_mass)·x̂`,
`L4 = d·(cos 60°, sin 60°, 0)`, `L5 = d·(cos(−60°), sin(−60°), 0)`;
in particular L4 and L5 do not depend on the masses. -/
theorem calc_lagrange_point_closed_forms (ops : Ops) (s : Simulator) :
    (s.lagrange_label = "L1" →
      calc_lagrange_point ops s = .ok
        ((s.planet_distance * AU) • (⟨1, 0, 0⟩ : Vec3) -
          (s.planet_distance * AU * ops.cbrt (s.planet_mass / (3 * s.star_mass))) •
            (⟨1, 0, 0⟩ : Vec3))) ∧
    (s.lagrange_label = "L2" →
      calc_lagrange_point ops s = .ok
        ((s.planet_distance * AU) • (⟨1, 0, 0⟩ : Vec3) +
          (s.planet_distance * AU * ops.cbrt (s.planet_mass / (3 * s.star_mass))) •
            (⟨1, 0, 0⟩ : Vec3))) ∧
    (s.lagrange_label = "L3" →
      calc_lagrange_point ops s = .ok
        ((-(s.planet_distance * AU)) • (⟨1, 0, 0⟩ : Vec3) -
          (7 / 12 * (s.planet_distance * AU) * s.planet_mass / s.star_mass) •
            (⟨1, 0, 0⟩ : Vec3))) ∧
    (s.lagrange_label = "L4" →
      calc_lagrange_point ops s = .ok
        ((s.planet_distance * AU) •
          (⟨ops.cos (radiansQ ops 60), ops.sin (radiansQ ops 60), 0⟩ : Vec3))) ∧
    (s.lagrange_label = "L5" →
      calc_lagrange_point ops s = .ok
        ((s.planet_distance * AU) •
          (⟨ops.cos (radiansQ ops (-60)), ops.sin (radiansQ ops (-60)), 0⟩ : Vec3))) ∧
    (∀ s2 : Simulator, s2.planet_distance = s.planet_distance →
      s2.lagrange_label = s.lagrange_label →
      s.lagrange_label = "L4" ∨ s.lagrange_label = "L5" →
      calc_lagrange_point ops s2 = calc_lagrange_point ops s) := by
  have h60 : radiansQ ops 60 = ops.pi / 3 := by unfold radiansQ; ring
  have h60n : radiansQ ops (-60) = -ops.pi / 3 := by unfold radiansQ; ring
  refine ⟨?_, ?_, ?_, ?_, ?_, ?_⟩
  · intro h
    simp [calc_lagrange_point, h, hill_radius_divisor, Vec3.smul_def, Vec3.sub_def]
  · intro h
    simp [calc_lagrange_point, h, hill_radius_divisor, Vec3.smul_def, Vec3.add_def]
  · intro h
    simp only [calc_lagrange_point, h, reduceIte, String.reduceEq,
      Vec3.smul_def, Vec3.sub_def, Vec3.mk.injEq, Except.ok.injEq]
    refine ⟨by ring, by ring, by ring⟩
  · intro h
    rw [h60]
    simp [calc_lagrange_point, h, unit_vector]
  · intro h
    rw [h60n]
    simp [calc_lagrange_point, h, unit_vector]
  · intro s2 hd hl hor
    rcases hor with h | h <;>
      simp [calc_lagrange_point, h, hl.trans h, hd]

/-- Witness for C4: the L4 position at the default parameters, and its
independence of the masses. -/
theorem calc_lagrange_point_closed_forms_witness :
    simDefault.lagrange_label = "L4" ∧
    calc_lagrange_point opsId simDefault = .ok
      ((simDefault.planet_distance * AU) •
        (⟨opsId.cos (radiansQ opsId 60), opsId.sin (radiansQ opsId 60), 0⟩ : Vec3)) ∧
    calc_lagrange_point opsId simOtherMasses = calc_lagrange_point opsId simDefault :=
  ⟨rfl,
   (calc_lagrange_point_closed_forms opsId simDefault).2.2.2.1 rfl,
   (calc_lagrange_point_closed_forms opsId simDefault).2.2.2.2.2
     simOtherMasses rfl rfl (Or.inl rfl)⟩

/-- Claim C5: `transform_to_corotating` rotates the x,y components of
every sample independently by `angle(tᵢ) = −ω·tᵢ` with
`x' = cos·x − sin·y`, `y' = sin·x + cos·y`, where `ω` is the
simulator's `angular_speed` times the sign of the time step; only the
x,y components are returned (the output has the same length as the
input and each entry is the rotated pair). -/
theorem transform_to_corotating_rotates_samples (ops : Ops) (s : Simulator)
    (pos_trans : List Vec3) (i : ℕ) (h : i < pos_trans.length) :
    (Simulator.transform_to_corotating ops s pos_trans).length = pos_trans.length ∧
    (Simulator.transform_to_corotating ops s pos_trans).getD i (0, 0) =
      (let omega := angular_speed ops s * signQ (time_step_in_seconds s)
       let t := (time_points s).getD i 0
       let p := pos_trans.getD i 0
       (ops.cos (-omega * t) * p.x - ops.sin (-omega * t) * p.y,
        ops.sin (-omega * t) * p.x + ops.cos (-omega * t) * p.y)) := by
  constructor
  · simp [Simulator.transform_to_corotating, transform_to_corotating_nb]
  · simp only [Simulator.transform_to_corotating, transform_to_corotating_nb]
    rw [List.getD_eq_getElem?_getD, List.getElem?_map, List.getElem?_range h]
    rfl

/-- Witness for C5 on a one-sample series. -/
theorem transform_to_corotating_rotates_samples_witness :
    0 < ([⟨1, 2, 3⟩] : List Vec3).length ∧
    ((Simulator.transform_to_corotating opsId simDefault [⟨1, 2, 3⟩]).length =
        ([⟨1, 2, 3⟩] : List Vec3).length ∧
      (Simulator.transform_to_corotating opsId simDefault [⟨1, 2, 3⟩]).getD 0 (0, 0) =
        (let omega := angular_speed opsId simDefault *
          signQ (time_step_in_seconds simDefault)
         let t := (time_points simDefault).getD 0 0
         let p := ([⟨1, 2, 3⟩] : List Vec3).getD 0 0
         (opsId.cos (-omega * t) * p.x - opsId.sin (-omega * t) * p.y,
          opsId.sin (-omega * t) * p.x + opsId.cos (-omega * t) * p.y))) :=
  ⟨by decide,
   transform_to_corotating_rotates_samples opsId simDefault [⟨1, 2, 3⟩] 0 (by decide)⟩

/-- Claim C6: assigning a value that violates a field's predicate
raises a `ValidationError` identifying the field, the value and the
expected constraint, and leaves the simulator state unchanged; the
predicate runs on every assignment, not only at construction. -/
theorem invalid_assignment_rejected_atomically (s : Simulator) (a : FieldAssign)
    (h : fieldCheck a = false) :
    setField s a = (s, some (SimError.validationError a (fieldConstraint a))) := by
  simp [setField, h]

/-- Witness for C6: `planet_mass = -5` against the non-negative
constraint. -/
theorem invalid_assignment_rejected_atomically_witness :
    fieldCheck (.planet_mass (-5)) = false ∧
    setField simDefault (.planet_mass (-5)) =
      (simDefault, some (SimError.validationError (.planet_mass (-5))
        (fieldConstraint (.planet_mass (-5))))) :=
  ⟨by decide,
   invalid_assignment_rejected_atomically simDefault (.planet_mass (-5)) (by decide)⟩

/-- Claim C7: for every `lagrange_label` outside `{L1,...,L5}`,
`calc_lagrange_point()` fails with the configuration error of the §7
taxonomy (the `ValueError` of the source's `match` default). -/
theorem invalid_label_yields_configuration_error (ops : Ops) (s : Simulator)
    (h : is_lagrange_label s.lagrange_label = false) :
    calc_lagrange_point ops s = .error (.configurationError
      "Invalid Lagrange point label. Must be one of (L1, L2, L3, L4, L5)") := by
  simp only [is_lagrange_label, lagrange_labels, List.mem_cons, List.not_mem_nil,
    or_false, decide_eq_false_iff_not, not_or] at h
  obtain ⟨h1, h2, h3, h4, h5⟩ := h
  simp [calc_lagrange_point, h1, h2, h3, h4, h5]

/-- Witness for C7: the label `L9`. -/
theorem invalid_label_yields_configuration_error_witness :
    is_lagrange_label simBadLabel.lagrange_label = false ∧
    calc_lagrange_point opsId simBadLabel = .error (.configurationError
      "Invalid Lagrange point label. Must be one of (L1, L2, L3, L4, L5)") :=
  ⟨by decide, invalid_label_yields_configuration_error opsId simBadLabel (by decide)⟩

/-- Claim C8: `calc_conserved_quantities()` returns exactly three
series computed pointwise from the stored trajectory: total linear
momentum `Σ m·v`, total angular momentum `Σ pos × (m·v)`, and total
energy `Σ ½·m·|v|²` plus `−G·Σ` over the three unique pairs of
`m_i·m_j / distance_ij`, with the satellite's mass the fixed constant
1 kg. -/
theorem conserved_quantities_pointwise (ops : Ops) (s : Simulator)
    (traj : List SimState) (i : ℕ) (h : i < traj.length) :
    (calc_conserved_quantities ops s traj).1.getD i 0 =
      s.star_mass • (traj.getD i default).star_vel +
      s.planet_mass • (traj.getD i default).planet_vel +
      (1 : ℚ) • (traj.getD i default).sat_vel ∧
    (calc_conserved_quantities ops s traj).2.1.getD i 0 =
      Vec3.cross (traj.getD i default).star_pos
        (s.star_mass • (traj.getD i default).star_vel) +
      Vec3.cross (traj.getD i default).planet_pos
        (s.planet_mass • (traj.getD i default).planet_vel) +
      Vec3.cross (traj.getD i default).sat_pos
        ((1 : ℚ) • (traj.getD i default).sat_vel) ∧
    (calc_conserved_quantities ops s traj).2.2.getD i 0 =
      (1 / 2 * s.star_mass * (normQ ops (traj.getD i default).star_vel) ^ 2 +
       1 / 2 * s.planet_mass * (normQ ops (traj.getD i default).planet_vel) ^ 2 +
       1 / 2 * 1 * (normQ ops (traj.getD i default).sat_vel) ^ 2) +
      (-G) * (s.star_mass * s.planet_mass /
          normQ ops ((traj.getD i default).star_pos - (traj.getD i default).planet_pos) +
        s.star_mass * 1 /
          normQ ops ((traj.getD i default).star_pos - (traj.getD i default).sat_pos) +
        s.planet_mass * 1 /
          normQ ops ((traj.getD i default).planet_pos - (traj.getD i default).sat_pos)) := by
  have hget : traj.getD i default = traj[i] := List.getD_eq_getElem traj default h
  have hopt : traj[i]? = some traj[i] := List.getElem?_eq_getElem h
  refine ⟨?_, ?_, ?_⟩
  · simp only [calc_conserved_quantities, calc_total_linear_momentum,
      List.getD_eq_getElem?_getD, List.getElem?_map, hopt, Option.map_some',
      Option.getD_some, hget, SAT_MASS, one_smul]
  · simp only [calc_conserved_quantities, calc_total_angular_momentum,
      List.getD_eq_getElem?_getD, List.getElem?_map, hopt, Option.map_some',
      Option.getD_some, hget, SAT_MASS, one_smul]
  · simp only [calc_conserved_quantities, calc_total_energy,
      List.getD_eq_getElem?_getD, List.getElem?_map, hopt, Option.map_some',
      Option.getD_some, hget, SAT_MASS]
    rw [normQ_sub_comm ops traj[i].sat_pos traj[i].planet_pos,
      normQ_sub_comm ops traj[i].sat_pos traj[i].star_pos]
    ring

/-- Witness for C8 on a one-state trajectory. -/
theorem conserved_quantities_pointwise_witness :
    0 < ([stateOne] : List SimState).length ∧
    ((calc_conserved_quantities opsId simDefault [stateOne]).1.getD 0 0 =
      simDefault.star_mass • (([stateOne] : List SimState).getD 0 default).star_vel +
      simDefault.planet_mass • (([stateOne] : List SimState).getD 0 default).planet_vel +
      (1 : ℚ) • (([stateOne] : List SimState).getD 0 default).sat_vel ∧
    (calc_conserved_quantities opsId simDefault [stateOne]).2.1.getD 0 0 =
      Vec3.cross (([stateOne] : List SimState).getD 0 default).star_pos
        (simDefault.star_mass • (([stateOne] : List SimState).getD 0 default).star_vel) +
      Vec3.cross (([stateOne] : List SimState).getD 0 default).planet_pos
        (simDefault.planet_mass • (([stateOne] : List SimState).getD 0 default).planet_vel) +
      Vec3.cross (([stateOne] : List SimState).getD 0 default).sat_pos
        ((1 : ℚ) • (([stateOne] : List SimState).getD 0 default).sat_vel) ∧
    (calc_conserved_quantities opsId simDefault [stateOne]).2.2.getD 0 0 =
      (1 / 2 * simDefault.star_mass *
        (normQ opsId (([stateOne] : List SimState).getD 0 default).star_vel) ^ 2 +
       1 / 2 * simDefault.planet_mass *
        (normQ opsId (([stateOne] : List SimState).getD 0 default).planet_vel) ^ 2 +
       1 / 2 * 1 *
        (normQ opsId (([stateOne] : List SimState).getD 0 default).sat_vel) ^ 2) +
      (-G) * (simDefault.star_mass * simDefault.planet_mass /
          normQ opsId ((([stateOne] : List SimState).getD 0 default).star_pos -
            (([stateOne] : List SimState).getD 0 default).planet_pos) +
        simDefault.star_mass * 1 /
          normQ opsId ((([stateOne] : List SimState).getD 0 default).star_pos -
            (([stateOne] : List SimState).getD 0 default).sat_pos) +
        simDefault.planet_mass * 1 /
          normQ opsId ((([stateOne] : List SimState).getD 0 default).planet_pos -
            (([stateOne] : List SimState).getD 0 default).sat_pos))) :=
  ⟨by decide,
   conserved_quantities_pointwise opsId simDefault [stateOne] 0 (by decide)⟩

/-- Claim C10: `star_mass = 0` passes the non-negative validator, yet
on a fully validated state with both masses zero the Hill-radius
divisor of `calc_lagrange_point` and the period divisor of
`calc_period_from_semi_major_axis` are both zero: the divisions are
not guarded by the validator's precondition. -/
theorem zero_mass_passes_validator_but_divides_by_zero :
    fieldCheck (.star_mass 0) = true ∧
    paramsValid simZeroMass = true ∧
    hill_radius_divisor simZeroMass.star_mass = 0 ∧
    period_divisor simZeroMass.star_mass simZeroMass.planet_mass = 0 := by
  refine ⟨by decide, by decide, ?_, ?_⟩
  · simp [hill_radius_divisor, simZeroMass, simDefault]
  · simp [period_divisor, simZeroMass, simDefault]

end LagrangeSim
